import Mathlib

/- A shallow embedding of src/dispatcher.cpp: a priority-based job dispatcher
simulator with retry, exponential backoff, priority aging, statistics
aggregation and a recorder writing one row per executed attempt plus one
run-summary row.  Randomness is modelled by an explicit oracle of draws;
every sleep advances a virtual millisecond clock by exactly the requested
amount, and every now_ms() call reads that clock. -/

/-- Command-line configuration (source: struct Args, lines 21-27), with the
defaults of the source. -/
structure Args where
  jobs : Int := 12
  max_retries : Int := 2
  mean_ms : Int := 300
  stddev_ms : Int := 100
  db : String := "dispatcher.db"
  deriving DecidableEq, Repr

/-- Numeric value of a decimal digit character, none on a non-digit. -/
def digitVal (c : Char) : Option Nat :=
  if '0' ≤ c ∧ c ≤ '9' then some (c.toNat - '0'.toNat) else none

/-- Decimal accumulation over a character list, none on a non-digit. -/
def digitsToNat : List Char → Nat → Option Nat
  | [], acc => some acc
  | c :: cs, acc =>
    match digitVal c with
    | some d => digitsToNat cs (acc * 10 + d)
    | none => none

/-- Model of std::stoi restricted to well-formed integer tokens (optional
leading minus then decimal digits); a token that std::stoi would reject
(making the program throw) maps to none. -/
def stoi (s : String) : Option Int :=
  match s.data with
  | [] => none
  | '-' :: cs =>
    match cs with
    | [] => none
    | _ :: _ => (digitsToNat cs 0).map (fun n => -(n : Int))
  | cs => (digitsToNat cs 0).map (fun n => (n : Int))

/-- Argument-scanning loop of parse_args (source: lines 29-42): argv entries
after the program name, scanned left to right; a recognised key consumes the
following entry when one exists and silently keeps the default otherwise (a
trailing lone key therefore changes nothing); unrecognised entries are
skipped; no range validation is performed. -/
def parseLoop : List String → Args → Option Args
  | [], a => some a
  | [_], a => some a
  | k :: v :: rest, a =>
    if k = "--jobs" then
      match stoi v with
      | some n => parseLoop rest { a with jobs := n }
      | none => none
    else if k = "--max-retries" then
      match stoi v with
      | some n => parseLoop rest { a with max_retries := n }
      | none => none
    else if k = "--mean-ms" then
      match stoi v with
      | some n => parseLoop rest { a with mean_ms := n }
      | none => none
    else if k = "--stddev-ms" then
      match stoi v with
      | some n => parseLoop rest { a with stddev_ms := n }
      | none => none
    else if k = "--db" then
      parseLoop rest { a with db := v }
    else parseLoop (v :: rest) a

/-- parse_args (source: lines 29-42), applied to the argv tail (argv[1..]). -/
def parse_args (argv : List String) : Option Args := parseLoop argv {}

/-- Randomness oracle: the sequence of draws the program takes from its
mt19937_64 generator, split per call site (source: struct RNG, lines 48-68).
prioSrc i is the raw entropy behind the i-th prio_dist draw, svcSrc i the
rounded normal sample behind the i-th service_ms_norm draw, failSrc i the
outcome of the i-th should_fail Bernoulli draw. -/
structure Oracle where
  prioSrc : Nat → Nat
  svcSrc : Nat → Int
  failSrc : Nat → Bool

/-- RNG::priority (source: lines 51, 61): uniform_int_distribution{1, 10},
so the value lies in [1, 10]. -/
def rng_priority (e : Nat) : Int := 1 + ((e % 10 : Nat) : Int)

/-- RNG::service_ms (source: lines 57-60): (int)round(max(30.0, sample));
the oracle supplies the rounded sample, the floor at 30 stays explicit. -/
def rng_service_ms (v : Int) : Int := max 30 v

/-- A unit of work (source: struct Job, lines 71-84), with the field defaults
of the source. -/
structure Job where
  ext_id : Int
  priority : Int
  attempt : Int := 0
  max_retries : Int
  enqueue_ts : Int
  start_ts : Option Int := none
  end_ts : Option Int := none
  wait_ms : Int := 0
  service_ms : Int := 0
  turnaround_ms : Int := 0
  status : String := "PENDING"
  fail_reason : String := ""
  deriving DecidableEq, Repr

/-- Heap comparator (source: struct JobCmp, lines 86-92): a orders below b
when it has lower priority, or equal priority and later enqueue timestamp. -/
def JobCmp (a b : Job) : Bool :=
  if a.priority ≠ b.priority then decide (a.priority < b.priority)
  else decide (a.enqueue_ts > b.enqueue_ts)

/-- popMax j l picks a maximal element with respect to JobCmp out of j :: l
and returns it together with the remaining jobs; this models the combined
top()/pop() of the std::priority_queue over pending jobs (source: lines 255,
289) on the bag of queued jobs. -/
def popMax : Job → List Job → Job × List Job
  | j, [] => (j, [])
  | j, x :: xs =>
    if JobCmp j x then
      ((popMax x xs).1, j :: (popMax x xs).2)
    else
      ((popMax j xs).1, x :: (popMax j xs).2)

/-- One row of the jobs table, exactly the values bound by
RunRecorder::record_job (source: lines 189-216); optional timestamps are
stored via value_or(0). -/
structure JobRow where
  run_id : Int
  ext_id : Int
  priority : Int
  attempt : Int
  status : String
  fail_reason : String
  enqueue_ts : Int
  start_ts : Int
  end_ts : Int
  wait_ms : Int
  service_ms : Int
  turnaround_ms : Int
  deriving DecidableEq, Repr

/-- RunRecorder::record_job (source: lines 189-216): bind the recorder's
current run_id and the job's fields into one jobs-table row. -/
def mkRow (rid : Int) (j : Job) : JobRow :=
  { run_id := rid
    ext_id := j.ext_id
    priority := j.priority
    attempt := j.attempt
    status := j.status
    fail_reason := j.fail_reason
    enqueue_ts := j.enqueue_ts
    start_ts := j.start_ts.getD 0
    end_ts := j.end_ts.getD 0
    wait_ms := j.wait_ms
    service_ms := j.service_ms
    turnaround_ms := j.turnaround_ms }

/-- Model of sqlite3_last_insert_rowid after record_run_summary inserts the
runs row (source: line 242): with prevRuns rows already present in the runs
table, the AUTOINCREMENT key of the new row is prevRuns + 1, hence ≥ 1. -/
def record_run_summary_rowid (prevRuns : Nat) : Int := Int.ofNat prevRuns + 1

/-- Dispatcher state during the run loop: the pending priority queue as a bag,
the completed set, the statistics accumulators of Dispatcher::run (source:
lines 285-286), the virtual clock, the index of the next RNG attempt draw,
the recorder's jobs-table rows, and RunRecorder::run_id which stays at its
initial 0 until record_run_summary runs (source: line 157). -/
structure RunState where
  pq : List Job
  completed : List Job
  successes : Int
  failures : Int
  total_wait : Int
  total_service : Int
  total_turn : Int
  clock : Int
  attemptIdx : Nat
  rows : List JobRow
  rec_run_id : Int
  deriving Repr

/-- Dispatcher::maybe_backoff (source: lines 273-278): a retry sleeps
100 << (attempt - 1) milliseconds, a first attempt does not sleep; the
result is the slept duration. -/
def maybe_backoff (attempt : Int) : Int :=
  if attempt = 0 then 0 else ((100 <<< (attempt - 1).toNat : Nat) : Int)

/-- Start timestamp of an attempt: the clock after the backoff sleep
(source: lines 291-293). -/
def startT (s : RunState) (m : Job) : Int := s.clock + maybe_backoff m.attempt

/-- Service duration drawn for the current attempt (source: line 297). -/
def svcT (o : Oracle) (s : RunState) : Int := rng_service_ms (o.svcSrc s.attemptIdx)

/-- End timestamp of an attempt: start plus the service sleep
(source: lines 299, 302). -/
def endT (o : Oracle) (s : RunState) (m : Job) : Int := startT s m + svcT o s

/-- The popped job after the execution phase of one loop iteration (source:
lines 291-303): backoff, start stamp, RUNNING, wait, service draw and sleep,
end stamp, turnaround. -/
def execJob (o : Oracle) (s : RunState) (m : Job) : Job :=
  { m with
    start_ts := some (startT s m)
    status := "RUNNING"
    wait_ms := startT s m - m.enqueue_ts
    service_ms := svcT o s
    end_ts := some (endT o s m)
    turnaround_ms := endT o s m - m.enqueue_ts }

/-- The job as finalized on the success branch (source: line 306). -/
def succJob (o : Oracle) (s : RunState) (m : Job) : Job :=
  { execJob o s m with status := "SUCCESS" }

/-- The job as stamped on the failure branch (source: lines 315-316); note the
source never clears fail_reason again afterwards. -/
def failJob (o : Oracle) (s : RunState) (m : Job) : Job :=
  { execJob o s m with status := "FAILED", fail_reason := "SIMULATED_FAILURE" }

/-- The re-enqueued form of a failed retryable job (source: lines 320-326):
attempt + 1, PENDING again, priority aged to min(10, priority + 1), enqueue
timestamp reset to now. -/
def retryJob (t : Int) (j : Job) : Job :=
  { j with
    attempt := j.attempt + 1
    status := "PENDING"
    priority := min 10 (j.priority + 1)
    enqueue_ts := t }

/-- Success branch of one loop iteration (source: lines 305-313): count the
success, add wait/service/turnaround to the running sums, record the row,
move the job to the completed set. -/
def dispatchSuccess (o : Oracle) (s : RunState) (m : Job) (r : List Job) : RunState :=
  { s with
    pq := r
    clock := endT o s m
    attemptIdx := s.attemptIdx + 1
    successes := s.successes + 1
    total_wait := s.total_wait + (succJob o s m).wait_ms
    total_service := s.total_service + (succJob o s m).service_ms
    total_turn := s.total_turn + (succJob o s m).turnaround_ms
    rows := s.rows ++ [mkRow s.rec_run_id (succJob o s m)]
    completed := s.completed ++ [succJob o s m] }

/-- Failure branch of one loop iteration (source: lines 314-330): record the
failed attempt, then either re-enqueue with aging and backoff bookkeeping
(attempt < max_retries) or count a terminal failure and move the job to the
completed set. -/
def dispatchFail (o : Oracle) (s : RunState) (m : Job) (r : List Job) : RunState :=
  if m.attempt < m.max_retries then
    { s with
      pq := r ++ [retryJob (endT o s m) (failJob o s m)]
      clock := endT o s m
      attemptIdx := s.attemptIdx + 1
      rows := s.rows ++ [mkRow s.rec_run_id (failJob o s m)] }
  else
    { s with
      pq := r
      clock := endT o s m
      attemptIdx := s.attemptIdx + 1
      failures := s.failures + 1
      rows := s.rows ++ [mkRow s.rec_run_id (failJob o s m)]
      completed := s.completed ++ [failJob o s m] }

/-- One full iteration of the while loop body on the popped job m and the
remaining queue r (source: lines 288-331). -/
def dispatchOne (o : Oracle) (s : RunState) (m : Job) (r : List Job) : RunState :=
  if o.failSrc s.attemptIdx then dispatchFail o s m r else dispatchSuccess o s m r

/-- The while loop of Dispatcher::run (source: lines 288-332), with explicit
fuel; any fuel at least pqMeasure of the queue reaches the empty queue. -/
def runLoop (o : Oracle) : Nat → RunState → RunState
  | 0, s => s
  | n + 1, s =>
    match s.pq with
    | [] => s
    | j :: rest => runLoop o n (dispatchOne o s (popMax j rest).1 (popMax j rest).2)

/-- The i-th seeded job, i being the 1-based external id (source: lines
263-269); the virtual clock starts at 0, so enqueue_ts = t0 + i = i. -/
def seedJob (cfg : Args) (o : Oracle) (i : Nat) : Job :=
  { ext_id := (i : Int)
    priority := rng_priority (o.prioSrc (i - 1))
    attempt := 0
    max_retries := cfg.max_retries
    enqueue_ts := (i : Int)
    start_ts := none
    end_ts := none
    wait_ms := 0
    service_ms := 0
    turnaround_ms := 0
    status := "PENDING"
    fail_reason := "" }

/-- Dispatcher::seed_jobs (source: lines 261-271): one job per i in
1..args.jobs; for args.jobs ≤ 0 the loop body never runs. -/
def seed_jobs (cfg : Args) (o : Oracle) : List Job :=
  (List.range cfg.jobs.toNat).map (fun k => seedJob cfg o (k + 1))

/-- The state right after rec.begin(), seed_jobs() and the counter
initialisations of Dispatcher::run (source: lines 280-286). -/
def initState (cfg : Args) (o : Oracle) : RunState :=
  { pq := seed_jobs cfg o
    completed := []
    successes := 0
    failures := 0
    total_wait := 0
    total_service := 0
    total_turn := 0
    clock := 0
    attemptIdx := 0
    rows := []
    rec_run_id := 0 }

/-- Remaining-attempt weight of one queued job; at least 1. -/
def jobWeight (j : Job) : Nat := (j.max_retries - j.attempt).toNat + 1

/-- Termination measure of the dispatch loop: total remaining-attempt weight
of the queue. -/
def pqMeasure (l : List Job) : Nat := (l.map jobWeight).sum

/-- The dispatcher state when the while loop has exhausted the queue. -/
def finalState (cfg : Args) (o : Oracle) : RunState :=
  runLoop o (pqMeasure (initState cfg o).pq) (initState cfg o)

/-- The run-summary row (source: lines 334-345): totals, averages guarded by
total ≠ 0, throughput = successes / seconds with seconds floored at 0.001;
the virtual run starts at clock 0 and ends at the final clock. -/
structure RunSummary where
  run_start_ms : Int
  run_end_ms : Int
  total_jobs : Int
  success_jobs : Int
  failed_jobs : Int
  avg_wait : Rat
  avg_service : Rat
  avg_turn : Rat
  throughput : Rat
  deriving DecidableEq, Repr

/-- Summary computation of Dispatcher::run after the loop (source: lines
334-345). -/
def mkSummary (s : RunState) : RunSummary :=
  { run_start_ms := 0
    run_end_ms := s.clock
    total_jobs := s.successes + s.failures
    success_jobs := s.successes
    failed_jobs := s.failures
    avg_wait :=
      if s.successes + s.failures ≠ 0 then
        (s.total_wait : Rat) / ((s.successes + s.failures : Int) : Rat)
      else 0
    avg_service :=
      if s.successes + s.failures ≠ 0 then
        (s.total_service : Rat) / ((s.successes + s.failures : Int) : Rat)
      else 0
    avg_turn :=
      if s.successes + s.failures ≠ 0 then
        (s.total_turn : Rat) / ((s.successes + s.failures : Int) : Rat)
      else 0
    throughput :=
      if 0 < max ((1 : Rat) / 1000) ((s.clock : Rat) / 1000) then
        (s.successes : Rat) / max ((1 : Rat) / 1000) ((s.clock : Rat) / 1000)
      else 0 }

/-- End-to-end run: seed, loop to exhaustion, summarise. -/
def runSummary (cfg : Args) (o : Oracle) : RunSummary := mkSummary (finalState cfg o)

/-- The jobs of a list whose recorded status is SUCCESS. -/
def successJobs (l : List Job) : List Job := l.filter (fun j => j.status == "SUCCESS")

/-- Modelled from the spec: the accumulation the claim describes, a running
sum over every job reaching a terminal state, terminally FAILED jobs
included; shown here for service_ms over the completed set. -/
def sumServiceTerminalSpec (l : List Job) : Int := (l.map Job.service_ms).sum

/- Infrastructure lemmas about the comparator and popMax. -/

theorem jobCmp_iff (a b : Job) :
    JobCmp a b = true ↔
      (a.priority < b.priority ∨ (a.priority = b.priority ∧ b.enqueue_ts < a.enqueue_ts)) := by
  unfold JobCmp
  split
  · rename_i hne
    simp only [decide_eq_true_eq]
    constructor
    · exact fun h => Or.inl h
    · rintro (h | ⟨he, _⟩)
      · exact h
      · exact absurd he hne
  · rename_i hne
    push_neg at hne
    simp only [decide_eq_true_eq]
    constructor
    · exact fun h => Or.inr ⟨hne, h⟩
    · rintro (h | h)
      · omega
      · exact h.2

theorem jobCmp_false_iff (a b : Job) :
    JobCmp a b = false ↔
      (b.priority ≤ a.priority ∧ (a.priority = b.priority → a.enqueue_ts ≤ b.enqueue_ts)) := by
  rw [← Bool.not_eq_true, jobCmp_iff]
  constructor
  · intro h
    push_neg at h
    exact ⟨by omega, fun he => by have := h.2 he; omega⟩
  · rintro ⟨h1, h2⟩
    push_neg
    exact ⟨by omega, fun he => by have := h2 he; omega⟩

theorem jobCmp_trans (a b c : Job) (h1 : JobCmp a b = true) (h2 : JobCmp b c = true) :
    JobCmp a c = true := by
  rw [jobCmp_iff] at h1 h2 ⊢
  rcases h1 with h1 | h1 <;> rcases h2 with h2 | h2
  · exact Or.inl (by omega)
  · exact Or.inl (by omega)
  · exact Or.inl (by omega)
  · exact Or.inr ⟨by omega, by omega⟩

theorem jobCmp_total (a b c : Job) (h : JobCmp a c = true) :
    JobCmp a b = true ∨ JobCmp b c = true := by
  rw [jobCmp_iff] at h ⊢
  rw [jobCmp_iff]
  by_cases hab : a.priority < b.priority
  · exact Or.inl (Or.inl hab)
  · rcases h with h | h
    · exact Or.inr (Or.inl (by omega))
    · by_cases hpe : a.priority = b.priority
      · by_cases hts : b.enqueue_ts < a.enqueue_ts
        · exact Or.inl (Or.inr ⟨hpe, hts⟩)
        · exact Or.inr (Or.inr ⟨by omega, by omega⟩)
      · exact Or.inr (Or.inl (by omega))

theorem popMax_cons_true (j x : Job) (xs : List Job) (h : JobCmp j x = true) :
    popMax j (x :: xs) = ((popMax x xs).1, j :: (popMax x xs).2) := by
  simp [popMax, h]

theorem popMax_cons_false (j x : Job) (xs : List Job) (h : JobCmp j x = false) :
    popMax j (x :: xs) = ((popMax j xs).1, x :: (popMax j xs).2) := by
  simp [popMax, h]

theorem popMax_perm (j : Job) (l : List Job) :
    ((popMax j l).1 :: (popMax j l).2).Perm (j :: l) := by
  induction l generalizing j with
  | nil => simp [popMax]
  | cons x xs ih =>
    by_cases hc : JobCmp j x = true
    · rw [popMax_cons_true j x xs hc]
      exact (List.Perm.swap j (popMax x xs).1 (popMax x xs).2).trans ((ih x).cons j)
    · rw [popMax_cons_false j x xs (by revert hc; cases JobCmp j x <;> simp)]
      exact ((List.Perm.swap x (popMax j xs).1 (popMax j xs).2).trans ((ih j).cons x)).trans
        (List.Perm.swap j x xs)


theorem popMax_max (j : Job) (l : List Job) :
    ∀ x ∈ j :: l, JobCmp (popMax j l).1 x = false := by
  induction l generalizing j with
  | nil =>
    intro x hx
    rcases List.mem_singleton.mp hx with rfl
    rw [jobCmp_false_iff]
    exact ⟨le_refl _, fun _ => le_refl _⟩
  | cons y ys ih =>
    intro x hx
    by_cases hc : JobCmp j y = true
    · rw [popMax_cons_true j y ys hc]
      rcases List.mem_cons.mp hx with rfl | hx2
      · have hmy : JobCmp (popMax y ys).1 y = false := ih y y (List.mem_cons_self y ys)
        rw [← Bool.not_eq_true]
        intro hmx
        have := jobCmp_trans _ _ _ hmx hc
        rw [this] at hmy
        cases hmy
      · exact ih y x hx2
    · have hc2 : JobCmp j y = false := by revert hc; cases JobCmp j y <;> simp
      rw [popMax_cons_false j y ys hc2]
      rcases List.mem_cons.mp hx with rfl | hx2
      · exact ih x x (List.mem_cons_self x ys)
      · rcases List.mem_cons.mp hx2 with rfl | hx3
        · rw [← Bool.not_eq_true]
          intro hmx
          rcases jobCmp_total (popMax j ys).1 j x hmx with hh | hh
          · have := ih j j (List.mem_cons_self j ys)
            rw [hh] at this; cases this
          · rw [hh] at hc2; cases hc2
        · exact ih j x (List.mem_cons_of_mem j hx3)

theorem popMax_fst_mem (j : Job) (l : List Job) : (popMax j l).1 ∈ j :: l :=
  (popMax_perm j l).subset (List.mem_cons_self _ _)

theorem popMax_snd_subset (j : Job) (l : List Job) : (popMax j l).2 ⊆ j :: l :=
  fun _ hx => (popMax_perm j l).subset (List.mem_cons_of_mem _ hx)

theorem popMax_snd_length (j : Job) (l : List Job) : (popMax j l).2.length = l.length := by
  have := (popMax_perm j l).length_eq
  simpa using this

/- Infrastructure lemmas about the run loop. -/

theorem runLoop_zero (o : Oracle) (s : RunState) : runLoop o 0 s = s := rfl

theorem runLoop_nil (o : Oracle) (n : Nat) (s : RunState) (h : s.pq = []) :
    runLoop o n s = s := by
  cases n with
  | zero => rfl
  | succ n =>
    rw [runLoop.eq_def]
    simp only [h]

theorem runLoop_cons (o : Oracle) (n : Nat) (s : RunState) (j : Job) (rest : List Job)
    (h : s.pq = j :: rest) :
    runLoop o (n + 1) s = runLoop o n (dispatchOne o s (popMax j rest).1 (popMax j rest).2) := by
  rw [runLoop.eq_def]
  simp only [h]

theorem runLoop_preserve (o : Oracle) (Q : RunState → Prop)
    (hstep : ∀ s j rest, s.pq = j :: rest → Q s →
      Q (dispatchOne o s (popMax j rest).1 (popMax j rest).2)) :
    ∀ n s, Q s → Q (runLoop o n s) := by
  intro n
  induction n with
  | zero => intro s h; exact h
  | succ n ih =>
    intro s h
    cases hpq : s.pq with
    | nil => rw [runLoop_nil o (n + 1) s hpq]; exact h
    | cons j rest =>
      rw [runLoop_cons o n s j rest hpq]
      exact ih _ (hstep s j rest hpq h)

/- Projection lemmas for the job transformers and the two dispatch branches. -/

theorem execJob_attempt (o : Oracle) (s : RunState) (m : Job) :
    (execJob o s m).attempt = m.attempt := rfl

theorem succJob_attempt (o : Oracle) (s : RunState) (m : Job) :
    (succJob o s m).attempt = m.attempt := rfl

theorem succJob_priority (o : Oracle) (s : RunState) (m : Job) :
    (succJob o s m).priority = m.priority := rfl

theorem succJob_max_retries (o : Oracle) (s : RunState) (m : Job) :
    (succJob o s m).max_retries = m.max_retries := rfl

theorem succJob_status (o : Oracle) (s : RunState) (m : Job) :
    (succJob o s m).status = "SUCCESS" := rfl

theorem failJob_attempt (o : Oracle) (s : RunState) (m : Job) :
    (failJob o s m).attempt = m.attempt := rfl

theorem failJob_priority (o : Oracle) (s : RunState) (m : Job) :
    (failJob o s m).priority = m.priority := rfl

theorem failJob_max_retries (o : Oracle) (s : RunState) (m : Job) :
    (failJob o s m).max_retries = m.max_retries := rfl

theorem failJob_status (o : Oracle) (s : RunState) (m : Job) :
    (failJob o s m).status = "FAILED" := rfl

theorem retryJob_attempt (t : Int) (j : Job) : (retryJob t j).attempt = j.attempt + 1 := rfl

theorem retryJob_priority (t : Int) (j : Job) :
    (retryJob t j).priority = min 10 (j.priority + 1) := rfl

theorem retryJob_max_retries (t : Int) (j : Job) :
    (retryJob t j).max_retries = j.max_retries := rfl

theorem dispatchOne_true (o : Oracle) (s : RunState) (m : Job) (r : List Job)
    (h : o.failSrc s.attemptIdx = true) : dispatchOne o s m r = dispatchFail o s m r := by
  simp [dispatchOne, h]

theorem dispatchOne_false (o : Oracle) (s : RunState) (m : Job) (r : List Job)
    (h : o.failSrc s.attemptIdx = false) : dispatchOne o s m r = dispatchSuccess o s m r := by
  simp [dispatchOne, h]

theorem dispatchFail_retry (o : Oracle) (s : RunState) (m : Job) (r : List Job)
    (h : m.attempt < m.max_retries) :
    dispatchFail o s m r =
      { s with
        pq := r ++ [retryJob (endT o s m) (failJob o s m)]
        clock := endT o s m
        attemptIdx := s.attemptIdx + 1
        rows := s.rows ++ [mkRow s.rec_run_id (failJob o s m)] } := by
  simp [dispatchFail, h]

theorem dispatchFail_term (o : Oracle) (s : RunState) (m : Job) (r : List Job)
    (h : ¬m.attempt < m.max_retries) :
    dispatchFail o s m r =
      { s with
        pq := r
        clock := endT o s m
        attemptIdx := s.attemptIdx + 1
        failures := s.failures + 1
        rows := s.rows ++ [mkRow s.rec_run_id (failJob o s m)]
        completed := s.completed ++ [failJob o s m] } := by
  simp [dispatchFail, h]

/- Termination of the dispatch loop. -/

theorem jobWeight_pos (j : Job) : 1 ≤ jobWeight j := by
  unfold jobWeight
  omega

theorem pqMeasure_nil : pqMeasure [] = 0 := rfl

theorem pqMeasure_cons (j : Job) (l : List Job) :
    pqMeasure (j :: l) = jobWeight j + pqMeasure l := by
  simp [pqMeasure]

theorem pqMeasure_append (l1 l2 : List Job) :
    pqMeasure (l1 ++ l2) = pqMeasure l1 + pqMeasure l2 := by
  simp [pqMeasure]

theorem pqMeasure_perm (l1 l2 : List Job) (h : l1.Perm l2) : pqMeasure l1 = pqMeasure l2 :=
  (h.map jobWeight).sum_eq

theorem pqMeasure_eq_zero (l : List Job) (h : pqMeasure l = 0) : l = [] := by
  cases l with
  | nil => rfl
  | cons j rest =>
    rw [pqMeasure_cons] at h
    have := jobWeight_pos j
    omega

theorem jobWeight_retry (o : Oracle) (s : RunState) (m : Job) (t : Int)
    (h : m.attempt < m.max_retries) :
    jobWeight (retryJob t (failJob o s m)) + 1 = jobWeight m := by
  unfold jobWeight
  rw [retryJob_attempt, retryJob_max_retries, failJob_attempt, failJob_max_retries]
  omega

theorem measure_decrease (o : Oracle) (s : RunState) (j : Job) (rest : List Job)
    (h : s.pq = j :: rest) :
    pqMeasure (dispatchOne o s (popMax j rest).1 (popMax j rest).2).pq + 1 ≤ pqMeasure s.pq := by
  have key : jobWeight (popMax j rest).1 + pqMeasure (popMax j rest).2 = pqMeasure (j :: rest) := by
    rw [← pqMeasure_cons]
    exact pqMeasure_perm _ _ (popMax_perm j rest)
  have hjr : pqMeasure (j :: rest) = jobWeight j + pqMeasure rest := pqMeasure_cons j rest
  have hwpos := jobWeight_pos (popMax j rest).1
  rw [h]
  by_cases hf : o.failSrc s.attemptIdx = true
  · rw [dispatchOne_true o s _ _ hf]
    by_cases hr : (popMax j rest).1.attempt < (popMax j rest).1.max_retries
    · rw [dispatchFail_retry o s _ _ hr]
      have hw := jobWeight_retry o s (popMax j rest).1 (endT o s (popMax j rest).1) hr
      simp only [pqMeasure_append, pqMeasure_cons, pqMeasure_nil]
      omega
    · rw [dispatchFail_term o s _ _ hr]
      simp only
      omega
  · rw [dispatchOne_false o s _ _ (by revert hf; cases o.failSrc s.attemptIdx <;> simp)]
    simp only [dispatchSuccess]
    omega

theorem runLoop_pq_empty (o : Oracle) :
    ∀ n s, pqMeasure s.pq ≤ n → (runLoop o n s).pq = [] := by
  intro n
  induction n with
  | zero =>
    intro s h
    rw [runLoop_zero]
    exact pqMeasure_eq_zero _ (by omega)
  | succ n ih =>
    intro s h
    cases hpq : s.pq with
    | nil => rw [runLoop_nil o (n + 1) s hpq]; exact hpq
    | cons j rest =>
      rw [runLoop_cons o n s j rest hpq]
      apply ih
      have := measure_decrease o s j rest hpq
      omega

theorem finalState_pq_empty (cfg : Args) (o : Oracle) : (finalState cfg o).pq = [] :=
  runLoop_pq_empty o _ _ (le_refl _)

/- Per-job invariants maintained by the dispatch loop. -/

def AllJobs (P : Job → Prop) (s : RunState) : Prop :=
  (∀ x ∈ s.pq, P x) ∧ ∀ x ∈ s.completed, P x

theorem allJobs_step (o : Oracle) (P : Job → Prop)
    (hS : ∀ o2 s2 m, P m → P (succJob o2 s2 m))
    (hF : ∀ o2 s2 m, P m → P (failJob o2 s2 m))
    (hR : ∀ t x, P x → x.attempt < x.max_retries → P (retryJob t x))
    (s : RunState) (j : Job) (rest : List Job) (hpq : s.pq = j :: rest)
    (hall : AllJobs P s) :
    AllJobs P (dispatchOne o s (popMax j rest).1 (popMax j rest).2) := by
  obtain ⟨hp, hc⟩ := hall
  have hm : P (popMax j rest).1 := hp _ (by rw [hpq]; exact popMax_fst_mem j rest)
  have hrs : ∀ x ∈ (popMax j rest).2, P x := fun x hx =>
    hp _ (by rw [hpq]; exact popMax_snd_subset j rest hx)
  by_cases hf : o.failSrc s.attemptIdx = true
  · rw [dispatchOne_true o s _ _ hf]
    by_cases hr : (popMax j rest).1.attempt < (popMax j rest).1.max_retries
    · rw [dispatchFail_retry o s _ _ hr]
      constructor
      · intro x hx
        simp only [List.mem_append, List.mem_singleton] at hx
        rcases hx with hx | rfl
        · exact hrs x hx
        · exact hR _ _ (hF o s _ hm) (by
            rw [failJob_attempt, failJob_max_retries]; exact hr)
      · intro x hx
        exact hc x hx
    · rw [dispatchFail_term o s _ _ hr]
      constructor
      · intro x hx
        exact hrs x hx
      · intro x hx
        simp only [List.mem_append, List.mem_singleton] at hx
        rcases hx with hx | rfl
        · exact hc x hx
        · exact hF o s _ hm
  · rw [dispatchOne_false o s _ _ (by revert hf; cases o.failSrc s.attemptIdx <;> simp)]
    unfold dispatchSuccess
    constructor
    · intro x hx
      exact hrs x hx
    · intro x hx
      simp only [List.mem_append, List.mem_singleton] at hx
      rcases hx with hx | rfl
      · exact hc x hx
      · exact hS o s _ hm

theorem allJobs_runLoop (o : Oracle) (P : Job → Prop)
    (hS : ∀ o2 s2 m, P m → P (succJob o2 s2 m))
    (hF : ∀ o2 s2 m, P m → P (failJob o2 s2 m))
    (hR : ∀ t x, P x → x.attempt < x.max_retries → P (retryJob t x))
    (n : Nat) (s : RunState) (h : AllJobs P s) : AllJobs P (runLoop o n s) :=
  runLoop_preserve o (AllJobs P) (fun s2 j rest hpq h2 =>
    allJobs_step o P hS hF hR s2 j rest hpq h2) n s h

theorem rng_priority_range (e : Nat) : 1 ≤ rng_priority e ∧ rng_priority e ≤ 10 := by
  unfold rng_priority
  have : e % 10 < 10 := Nat.mod_lt e (by norm_num)
  omega

theorem seed_jobs_mem (cfg : Args) (o : Oracle) (x : Job) (hx : x ∈ seed_jobs cfg o) :
    x.attempt = 0 ∧ x.max_retries = cfg.max_retries ∧ 1 ≤ x.priority ∧ x.priority ≤ 10 := by
  unfold seed_jobs at hx
  simp only [List.mem_map, List.mem_range] at hx
  obtain ⟨k, _, rfl⟩ := hx
  refine ⟨rfl, rfl, ?_⟩
  exact rng_priority_range (o.prioSrc (k + 1 - 1))

theorem seed_jobs_length (cfg : Args) (o : Oracle) :
    (seed_jobs cfg o).length = cfg.jobs.toNat := by
  simp [seed_jobs]

/- Counter and statistics invariant of the dispatch loop. -/

def AggInv (N : Int) (s : RunState) : Prop :=
  s.successes + s.failures + (s.pq.length : Int) = N ∧
  (s.completed.length : Int) = s.successes + s.failures ∧
  s.total_wait = ((successJobs s.completed).map Job.wait_ms).sum ∧
  s.total_service = ((successJobs s.completed).map Job.service_ms).sum ∧
  s.total_turn = ((successJobs s.completed).map Job.turnaround_ms).sum

theorem successJobs_append_succ (l : List Job) (x : Job) (h : x.status = "SUCCESS") :
    successJobs (l ++ [x]) = successJobs l ++ [x] := by
  unfold successJobs
  rw [List.filter_append]
  congr 1
  simp [h]

theorem successJobs_append_failed (l : List Job) (x : Job) (h : x.status = "FAILED") :
    successJobs (l ++ [x]) = successJobs l := by
  unfold successJobs
  rw [List.filter_append]
  simp [h]

theorem aggInv_step (o : Oracle) (N : Int)
    (s : RunState) (j : Job) (rest : List Job) (hpq : s.pq = j :: rest)
    (hinv : AggInv N s) :
    AggInv N (dispatchOne o s (popMax j rest).1 (popMax j rest).2) := by
  obtain ⟨h1, h2, h3, h4, h5⟩ := hinv
  have hlen : (popMax j rest).2.length = rest.length := popMax_snd_length j rest
  rw [hpq] at h1
  simp only [List.length_cons] at h1
  by_cases hf : o.failSrc s.attemptIdx = true
  · rw [dispatchOne_true o s _ _ hf]
    by_cases hr : (popMax j rest).1.attempt < (popMax j rest).1.max_retries
    · rw [dispatchFail_retry o s _ _ hr]
      refine ⟨?_, h2, h3, h4, h5⟩
      simp only [List.length_append, List.length_singleton, hlen]
      push_cast
      push_cast at h1
      omega
    · rw [dispatchFail_term o s _ _ hr]
      refine ⟨?_, ?_, ?_, ?_, ?_⟩
      · simp only [hlen]
        push_cast at h1
        omega
      · simp only [List.length_append, List.length_singleton]
        push_cast
        omega
      · rw [successJobs_append_failed _ _ (failJob_status o s _)]
        exact h3
      · rw [successJobs_append_failed _ _ (failJob_status o s _)]
        exact h4
      · rw [successJobs_append_failed _ _ (failJob_status o s _)]
        exact h5
  · rw [dispatchOne_false o s _ _ (by revert hf; cases o.failSrc s.attemptIdx <;> simp)]
    unfold dispatchSuccess
    refine ⟨?_, ?_, ?_, ?_, ?_⟩
    · simp only [hlen]
      push_cast at h1
      omega
    · simp only [List.length_append, List.length_singleton]
      push_cast
      omega
    · rw [successJobs_append_succ _ _ (succJob_status o s _)]
      simp only [List.map_append, List.sum_append, List.map_cons, List.map_nil,
        List.sum_cons, List.sum_nil]
      omega
    · rw [successJobs_append_succ _ _ (succJob_status o s _)]
      simp only [List.map_append, List.sum_append, List.map_cons, List.map_nil,
        List.sum_cons, List.sum_nil]
      omega
    · rw [successJobs_append_succ _ _ (succJob_status o s _)]
      simp only [List.map_append, List.sum_append, List.map_cons, List.map_nil,
        List.sum_cons, List.sum_nil]
      omega

theorem aggInv_runLoop (o : Oracle) (N : Int) (n : Nat) (s : RunState)
    (h : AggInv N s) : AggInv N (runLoop o n s) :=
  runLoop_preserve o (AggInv N) (fun s2 j rest hpq h2 => aggInv_step o N s2 j rest hpq h2) n s h

theorem aggInv_init (cfg : Args) (o : Oracle) :
    AggInv (cfg.jobs.toNat : Int) (initState cfg o) := by
  unfold AggInv initState
  simp [successJobs, seed_jobs_length]

/- Concrete configurations and oracles used by the claim-level theorems. -/

/-- One job, no retries allowed. -/
def cfgOne : Args := { jobs := 1, max_retries := 0 }

/-- One job, up to two retries. -/
def cfgRetry : Args := { jobs := 1, max_retries := 2 }

/-- A negative configured job count. -/
def cfgNeg : Args := { jobs := -5 }

/-- Every attempt draw fails. -/
def oracleAllFail : Oracle := ⟨fun _ => 0, fun _ => 30, fun _ => true⟩

/-- Every attempt draw succeeds. -/
def oracleAllPass : Oracle := ⟨fun _ => 0, fun _ => 30, fun _ => false⟩

/-- The first attempt draw fails, all later ones succeed. -/
def oracleFailOnce : Oracle := ⟨fun _ => 0, fun _ => 30, fun i => decide (i = 0)⟩

/-- A pending job of priority 5. -/
def jW1 : Job := { ext_id := 1, priority := 5, max_retries := 2, enqueue_ts := 1 }

/-- A pending job of priority 7. -/
def jW2 : Job := { ext_id := 2, priority := 7, max_retries := 2, enqueue_ts := 2 }

/-- C1, counterexample: in the run with one job that terminally fails, the
completed terminal job carries 30 ms of service time, yet the emitted
avg_service is 0, not 30 / 1: the accumulator never added the terminally
FAILED job's times, contradicting the claim that sums run over every
terminal job. -/
theorem C1_counterexample :
    (runSummary cfgOne oracleAllFail).total_jobs = 1 ∧
    sumServiceTerminalSpec (finalState cfgOne oracleAllFail).completed = 30 ∧
    (runSummary cfgOne oracleAllFail).avg_service = 0 ∧
    (runSummary cfgOne oracleAllFail).avg_service ≠
      (sumServiceTerminalSpec (finalState cfgOne oracleAllFail).completed : Rat) /
        ((runSummary cfgOne oracleAllFail).total_jobs : Rat) := by
  have h1 : (finalState cfgOne oracleAllFail).successes = 0 := by decide
  have h2 : (finalState cfgOne oracleAllFail).failures = 1 := by decide
  have h3 : (finalState cfgOne oracleAllFail).total_service = 0 := by decide
  have h4 : sumServiceTerminalSpec (finalState cfgOne oracleAllFail).completed = 30 := by decide
  have havg : (runSummary cfgOne oracleAllFail).avg_service = 0 := by
    unfold runSummary mkSummary
    rw [h1, h2, h3]
    norm_num
  have htot : (runSummary cfgOne oracleAllFail).total_jobs = 1 := by
    unfold runSummary mkSummary
    rw [h1, h2]
    norm_num
  refine ⟨htot, h4, havg, ?_⟩
  rw [havg, h4, htot]
  norm_num

/-- C1, amended: the aggregator accumulates the running sums of waitMs,
serviceMs and turnaroundMs only over jobs finishing with SUCCESS (terminally
FAILED jobs contribute nothing to the sums, intermediate failed attempts
likewise), and at run end avgWait = sumWait / totalJobs with totalJobs
counting successes plus terminal failures, each average being 0 when
totalJobs = 0. -/
theorem C1_success_only_sums (cfg : Args) (o : Oracle) :
    (finalState cfg o).total_wait =
      ((successJobs (finalState cfg o).completed).map Job.wait_ms).sum ∧
    (finalState cfg o).total_service =
      ((successJobs (finalState cfg o).completed).map Job.service_ms).sum ∧
    (finalState cfg o).total_turn =
      ((successJobs (finalState cfg o).completed).map Job.turnaround_ms).sum ∧
    (runSummary cfg o).avg_wait =
      (if (runSummary cfg o).total_jobs ≠ 0 then
        ((finalState cfg o).total_wait : Rat) / ((runSummary cfg o).total_jobs : Rat)
      else 0) ∧
    (runSummary cfg o).avg_service =
      (if (runSummary cfg o).total_jobs ≠ 0 then
        ((finalState cfg o).total_service : Rat) / ((runSummary cfg o).total_jobs : Rat)
      else 0) ∧
    (runSummary cfg o).avg_turn =
      (if (runSummary cfg o).total_jobs ≠ 0 then
        ((finalState cfg o).total_turn : Rat) / ((runSummary cfg o).total_jobs : Rat)
      else 0) := by
  have hA : AggInv (cfg.jobs.toNat : Int) (finalState cfg o) := by
    unfold finalState
    exact aggInv_runLoop o _ _ _ (aggInv_init cfg o)
  obtain ⟨-, -, h3, h4, h5⟩ := hA
  exact ⟨h3, h4, h5, rfl, rfl, rfl⟩

/-- C1, witness for the amended statement at a concrete run. -/
theorem C1_witness :
    (finalState cfgOne oracleAllFail).total_wait =
      ((successJobs (finalState cfgOne oracleAllFail).completed).map Job.wait_ms).sum ∧
    (finalState cfgOne oracleAllFail).total_service =
      ((successJobs (finalState cfgOne oracleAllFail).completed).map Job.service_ms).sum ∧
    (finalState cfgOne oracleAllFail).total_turn =
      ((successJobs (finalState cfgOne oracleAllFail).completed).map Job.turnaround_ms).sum ∧
    (runSummary cfgOne oracleAllFail).avg_wait =
      (if (runSummary cfgOne oracleAllFail).total_jobs ≠ 0 then
        ((finalState cfgOne oracleAllFail).total_wait : Rat) /
          ((runSummary cfgOne oracleAllFail).total_jobs : Rat)
      else 0) ∧
    (runSummary cfgOne oracleAllFail).avg_service =
      (if (runSummary cfgOne oracleAllFail).total_jobs ≠ 0 then
        ((finalState cfgOne oracleAllFail).total_service : Rat) /
          ((runSummary cfgOne oracleAllFail).total_jobs : Rat)
      else 0) ∧
    (runSummary cfgOne oracleAllFail).avg_turn =
      (if (runSummary cfgOne oracleAllFail).total_jobs ≠ 0 then
        ((finalState cfgOne oracleAllFail).total_turn : Rat) /
          ((runSummary cfgOne oracleAllFail).total_jobs : Rat)
      else 0) :=
  C1_success_only_sums cfgOne oracleAllFail

/-- C2: every jobs-table row of a run is written with run_id = 0, because
RunRecorder::run_id is only assigned from last_insert_rowid inside
record_run_summary, which executes after every record_job call of the run;
the summary row's AUTOINCREMENT key is at least 1, so the stored run_id of
an attempt never identifies the current run's summary row. -/
theorem C2_run_id_zero :
    (finalState cfgOne oracleAllPass).rows.map JobRow.run_id = [0] ∧
    record_run_summary_rowid 0 = 1 := by
  decide

/-- C3: in the run whose single job fails on attempt 0 and succeeds on
attempt 1, the recorded rows are a FAILED row and then a SUCCESS row that
still carries failReason = "SIMULATED_FAILURE": the source never clears
fail_reason on a later successful attempt, so a SUCCESS record can have a
non-empty failReason, contradicting the claim. -/
theorem C3_stale_fail_reason :
    (finalState cfgRetry oracleFailOnce).rows.map (fun r => (r.status, r.fail_reason)) =
      [("FAILED", "SIMULATED_FAILURE"), ("SUCCESS", "SIMULATED_FAILURE")] ∧
    "SIMULATED_FAILURE" ≠ "" := by
  refine ⟨by decide, by decide⟩

/-- C4: the run outcome depends on the random draw stream: two runs with the
identical configuration but different draws produce different summaries.
The source seeds its mt19937_64 from std::random_device with no injectable
seed, so the draw stream cannot be fixed across runs and same-configuration
runs are not reproducible. -/
theorem C4_entropy_dependence :
    runSummary cfgOne oracleAllPass ≠ runSummary cfgOne oracleAllFail := by
  intro heq
  have h1 : (runSummary cfgOne oracleAllPass).success_jobs = 1 := by decide
  have h2 : (runSummary cfgOne oracleAllFail).success_jobs = 0 := by decide
  rw [heq, h2] at h1
  exact absurd h1 (by decide)

/-- C5: popMax removes and returns a pending job of maximal priority, and
among jobs of equal priority one with the smallest enqueue timestamp; the
returned job together with the rest is a permutation of the queue. -/
theorem C5_popMax_selects_max (j : Job) (l : List Job) :
    ((popMax j l).1 :: (popMax j l).2).Perm (j :: l) ∧
    ∀ x ∈ j :: l,
      x.priority ≤ (popMax j l).1.priority ∧
      ((popMax j l).1.priority = x.priority → (popMax j l).1.enqueue_ts ≤ x.enqueue_ts) := by
  refine ⟨popMax_perm j l, fun x hx => ?_⟩
  have hmax := popMax_max j l x hx
  rw [jobCmp_false_iff] at hmax
  exact ⟨hmax.1, hmax.2⟩

/-- C5, witness at a concrete two-job queue. -/
theorem C5_witness :
    ((popMax jW1 [jW2]).1 :: (popMax jW1 [jW2]).2).Perm (jW1 :: [jW2]) ∧
    (jW2.priority ≤ (popMax jW1 [jW2]).1.priority ∧
      ((popMax jW1 [jW2]).1.priority = jW2.priority →
        (popMax jW1 [jW2]).1.enqueue_ts ≤ jW2.enqueue_ts)) :=
  ⟨(C5_popMax_selects_max jW1 [jW2]).1,
   (C5_popMax_selects_max jW1 [jW2]).2 jW2 (by decide)⟩

/-- C6: throughout a run (any number of loop iterations) with a non-negative
retry cap, every job in the queue and every completed job has attempt in
[0, maxRetries]; moreover a popped job whose attempt equals its maxRetries
and whose attempt fails is not re-enqueued: the queue shrinks to the rest
and the job joins the completed set terminally FAILED. -/
theorem C6_attempt_bounded (cfg : Args) (o : Oracle) (n : Nat) (h : 0 ≤ cfg.max_retries) :
    (∀ x ∈ (runLoop o n (initState cfg o)).pq, 0 ≤ x.attempt ∧ x.attempt ≤ x.max_retries) ∧
    (∀ x ∈ (runLoop o n (initState cfg o)).completed,
      0 ≤ x.attempt ∧ x.attempt ≤ x.max_retries) ∧
    ∀ s m r, m.attempt = m.max_retries → o.failSrc s.attemptIdx = true →
      (dispatchOne o s m r).pq = r ∧
      (dispatchOne o s m r).completed = s.completed ++ [failJob o s m] ∧
      (failJob o s m).status = "FAILED" := by
  have hinv : AllJobs (fun x => 0 ≤ x.attempt ∧ x.attempt ≤ x.max_retries)
      (runLoop o n (initState cfg o)) := by
    apply allJobs_runLoop
    · intro o2 s2 m hm
      simpa only [succJob_attempt, succJob_max_retries] using hm
    · intro o2 s2 m hm
      simpa only [failJob_attempt, failJob_max_retries] using hm
    · intro t x hx hlt
      simp only [retryJob_attempt, retryJob_max_retries]
      omega
    · constructor
      · intro x hx
        obtain ⟨ha, hmr, -, -⟩ := seed_jobs_mem cfg o x hx
        omega
      · intro x hx
        simp [initState] at hx
  refine ⟨hinv.1, hinv.2, fun s m r h1 h2 => ?_⟩
  rw [dispatchOne_true o s m r h2, dispatchFail_term o s m r (by omega)]
  exact ⟨rfl, rfl, rfl⟩

/-- C6, witness: the hypothesis and the conclusion at a concrete run. -/
theorem C6_witness :
    0 ≤ cfgRetry.max_retries ∧
    ((∀ x ∈ (runLoop oracleFailOnce 2 (initState cfgRetry oracleFailOnce)).pq,
        0 ≤ x.attempt ∧ x.attempt ≤ x.max_retries) ∧
      (∀ x ∈ (runLoop oracleFailOnce 2 (initState cfgRetry oracleFailOnce)).completed,
        0 ≤ x.attempt ∧ x.attempt ≤ x.max_retries) ∧
      ∀ s m r, m.attempt = m.max_retries → oracleFailOnce.failSrc s.attemptIdx = true →
        (dispatchOne oracleFailOnce s m r).pq = r ∧
        (dispatchOne oracleFailOnce s m r).completed = s.completed ++ [failJob oracleFailOnce s m] ∧
        (failJob oracleFailOnce s m).status = "FAILED") :=
  ⟨by decide, C6_attempt_bounded cfgRetry oracleFailOnce 2 (by decide)⟩

/-- C7: the priority of a re-enqueued retry equals min(10, previousPriority
plus 1); for priorities at most 10 this aging step is monotonically
non-decreasing and capped at 10; a failed retryable dispatch re-enqueues
exactly that aged job (the failure stamp leaves priority unchanged); and
throughout a run every queued or completed job's priority stays in [1, 10]. -/
theorem C7_priority_aging (cfg : Args) (o : Oracle) (n : Nat) :
    (∀ t x, (retryJob t x).priority = min 10 (x.priority + 1)) ∧
    (∀ t x, x.priority ≤ 10 →
      x.priority ≤ (retryJob t x).priority ∧ (retryJob t x).priority ≤ 10) ∧
    (∀ s m r, o.failSrc s.attemptIdx = true → m.attempt < m.max_retries →
      (dispatchOne o s m r).pq = r ++ [retryJob (endT o s m) (failJob o s m)] ∧
      (failJob o s m).priority = m.priority) ∧
    (∀ x ∈ (runLoop o n (initState cfg o)).pq, 1 ≤ x.priority ∧ x.priority ≤ 10) ∧
    (∀ x ∈ (runLoop o n (initState cfg o)).completed, 1 ≤ x.priority ∧ x.priority ≤ 10) := by
  have hinv : AllJobs (fun x => 1 ≤ x.priority ∧ x.priority ≤ 10)
      (runLoop o n (initState cfg o)) := by
    apply allJobs_runLoop
    · intro o2 s2 m hm
      simpa only [succJob_priority] using hm
    · intro o2 s2 m hm
      simpa only [failJob_priority] using hm
    · intro t x hx hlt
      simp only [retryJob_priority]
      omega
    · constructor
      · intro x hx
        obtain ⟨-, -, hp1, hp2⟩ := seed_jobs_mem cfg o x hx
        exact ⟨hp1, hp2⟩
      · intro x hx
        simp [initState] at hx
  refine ⟨fun t x => retryJob_priority t x, fun t x hx => ?_, fun s m r h1 h2 => ?_,
    hinv.1, hinv.2⟩
  · rw [retryJob_priority]
    omega
  · rw [dispatchOne_true o s m r h1, dispatchFail_retry o s m r h2]
    exact ⟨rfl, rfl⟩

/-- C7, witness at a concrete run. -/
theorem C7_witness :
    (∀ t x, (retryJob t x).priority = min 10 (x.priority + 1)) ∧
    (∀ t x, x.priority ≤ 10 →
      x.priority ≤ (retryJob t x).priority ∧ (retryJob t x).priority ≤ 10) ∧
    (∀ s m r, oracleFailOnce.failSrc s.attemptIdx = true → m.attempt < m.max_retries →
      (dispatchOne oracleFailOnce s m r).pq =
        r ++ [retryJob (endT oracleFailOnce s m) (failJob oracleFailOnce s m)] ∧
      (failJob oracleFailOnce s m).priority = m.priority) ∧
    (∀ x ∈ (runLoop oracleFailOnce 2 (initState cfgRetry oracleFailOnce)).pq,
      1 ≤ x.priority ∧ x.priority ≤ 10) ∧
    (∀ x ∈ (runLoop oracleFailOnce 2 (initState cfgRetry oracleFailOnce)).completed,
      1 ≤ x.priority ∧ x.priority ≤ 10) :=
  C7_priority_aging cfgRetry oracleFailOnce 2

/-- C8: a first attempt (attempt = 0) incurs no backoff, a retry (attempt
strictly positive) blocks for exactly 100 * 2 ^ (attempt - 1) milliseconds,
and in every dispatched attempt the recorded start timestamp equals the
clock at pop time plus that backoff, so the delay happens before the
attempt begins. -/
theorem C8_backoff (a : Int) (h : 0 ≤ a) :
    (a = 0 → maybe_backoff a = 0) ∧
    (0 < a → maybe_backoff a = 100 * 2 ^ (a - 1).toNat) ∧
    ∀ (o : Oracle) (s : RunState) (m : Job) (r : List Job),
      ∃ row, (dispatchOne o s m r).rows = s.rows ++ [row] ∧
        row.start_ts = s.clock + maybe_backoff m.attempt := by
  refine ⟨fun h0 => by simp [maybe_backoff, h0], fun hpos => ?_, fun o s m r => ?_⟩
  · unfold maybe_backoff
    rw [if_neg (by omega), Nat.shiftLeft_eq]
    push_cast
    ring
  · by_cases hf : o.failSrc s.attemptIdx = true
    · rw [dispatchOne_true o s m r hf]
      by_cases hr : m.attempt < m.max_retries
      · rw [dispatchFail_retry o s m r hr]
        exact ⟨mkRow s.rec_run_id (failJob o s m), rfl, rfl⟩
      · rw [dispatchFail_term o s m r hr]
        exact ⟨mkRow s.rec_run_id (failJob o s m), rfl, rfl⟩
    · rw [dispatchOne_false o s m r (by revert hf; cases o.failSrc s.attemptIdx <;> simp)]
      exact ⟨mkRow s.rec_run_id (succJob o s m), rfl, rfl⟩

/-- C8, witness at attempt = 2. -/
theorem C8_witness :
    0 ≤ (2 : Int) ∧
    (((2 : Int) = 0 → maybe_backoff 2 = 0) ∧
      (0 < (2 : Int) → maybe_backoff 2 = 100 * 2 ^ ((2 : Int) - 1).toNat) ∧
      ∀ (o : Oracle) (s : RunState) (m : Job) (r : List Job),
        ∃ row, (dispatchOne o s m r).rows = s.rows ++ [row] ∧
          row.start_ts = s.clock + maybe_backoff m.attempt) :=
  ⟨by decide, C8_backoff 2 (by decide)⟩

/-- C9: for a non-negative configured job count, the dispatch loop terminates
with an empty queue, the emitted totalJobs equals successes plus terminal
failures, totalJobs equals the configured job count, and the completed set
holds exactly that many jobs — every seeded job reached exactly one terminal
state and was counted exactly once. -/
theorem C9_conservation (cfg : Args) (o : Oracle) (h : 0 ≤ cfg.jobs) :
    (finalState cfg o).pq = [] ∧
    (runSummary cfg o).total_jobs =
      (runSummary cfg o).success_jobs + (runSummary cfg o).failed_jobs ∧
    (runSummary cfg o).total_jobs = cfg.jobs ∧
    ((finalState cfg o).completed.length : Int) = cfg.jobs := by
  have hA : AggInv (cfg.jobs.toNat : Int) (finalState cfg o) := by
    unfold finalState
    exact aggInv_runLoop o _ _ _ (aggInv_init cfg o)
  have hpq := finalState_pq_empty cfg o
  obtain ⟨h1, h2, -, -, -⟩ := hA
  rw [hpq] at h1
  simp only [List.length_nil, Nat.cast_zero, add_zero] at h1
  have htot : (runSummary cfg o).total_jobs =
      (finalState cfg o).successes + (finalState cfg o).failures := rfl
  refine ⟨hpq, rfl, ?_, ?_⟩
  · rw [htot]
    omega
  · rw [h2]
    omega

/-- C9, witness at a concrete run. -/
theorem C9_witness :
    0 ≤ cfgRetry.jobs ∧
    ((finalState cfgRetry oracleFailOnce).pq = [] ∧
      (runSummary cfgRetry oracleFailOnce).total_jobs =
        (runSummary cfgRetry oracleFailOnce).success_jobs +
          (runSummary cfgRetry oracleFailOnce).failed_jobs ∧
      (runSummary cfgRetry oracleFailOnce).total_jobs = cfgRetry.jobs ∧
      ((finalState cfgRetry oracleFailOnce).completed.length : Int) = cfgRetry.jobs) :=
  ⟨by decide, C9_conservation cfgRetry oracleFailOnce (by decide)⟩

/-- C10: for any configured job count at most 0 (negative included) the
seeding loop creates no jobs and the run completes as an empty run: the
summary is exactly the zero summary (all counters, averages and the
throughput equal 0); and parse_args performs no validation of the job-count
argument — it accepts "--jobs -5" and stores -5. -/
theorem C10_empty_run (cfg : Args) (o : Oracle) (h : cfg.jobs ≤ 0) :
    runSummary cfg o =
      { run_start_ms := 0, run_end_ms := 0, total_jobs := 0, success_jobs := 0,
        failed_jobs := 0, avg_wait := 0, avg_service := 0, avg_turn := 0,
        throughput := 0 } ∧
    parse_args ["--jobs", "-5"] =
      some { jobs := -5, max_retries := 2, mean_ms := 300, stddev_ms := 100,
             db := "dispatcher.db" } := by
  have hseed : seed_jobs cfg o = [] := by
    unfold seed_jobs
    have h0 : cfg.jobs.toNat = 0 := by omega
    rw [h0]
    rfl
  have hinit : initState cfg o = ⟨[], [], 0, 0, 0, 0, 0, 0, 0, [], 0⟩ := by
    unfold initState
    rw [hseed]
  have hfs : finalState cfg o = initState cfg o := by
    unfold finalState
    exact runLoop_nil o _ _ (by rw [hinit])
  constructor
  · unfold runSummary
    rw [hfs, hinit]
    unfold mkSummary
    norm_num
  · decide

/-- C10, witness at the configuration jobs = -5. -/
theorem C10_witness :
    cfgNeg.jobs ≤ 0 ∧
    (runSummary cfgNeg oracleAllPass =
      { run_start_ms := 0, run_end_ms := 0, total_jobs := 0, success_jobs := 0,
        failed_jobs := 0, avg_wait := 0, avg_service := 0, avg_turn := 0,
        throughput := 0 } ∧
    parse_args ["--jobs", "-5"] =
      some { jobs := -5, max_retries := 2, mean_ms := 300, stddev_ms := 100,
             db := "dispatcher.db" }) :=
  ⟨by decide, C10_empty_run cfgNeg oracleAllPass (by decide)⟩
